import Mathlib

/-!
Shallow embedding of the `hetzner-dns-update` dynamic-DNS reconciliation tool.

The repository consists of near-duplicate variants of one Go file.  Two of
them are embedded here:

* namespace `MainGo`: the variant in `src/main.go` (update-only loop,
  last-two-labels zone resolution, `updateRecord` with a hard-coded
  `"type": "A"` payload field);
* namespace `V2`: the engine variant in `src/unnamed/part_000` (second
  document, the one with the full create/update/delete decision table,
  first-dot domain splitting, typed `createRecord`/`updateRecord`/
  `deleteRecord` calls).

Domain names are represented by their dot-separated label lists (the Go code
only ever splits them on `"."`; `String.intercalate "." ∘ labels` recovers
the Go string).  Go errors are represented by tagged error values carrying
the same payloads as the corresponding `fmt.Errorf` messages.  HTTP
interactions are represented by their observable data: the single response a
call consumes and the request(s) it issues.
-/

namespace Dns

/-- `Zone` from the Go source: `{id, name}`; the name is kept as its label
list. -/
structure Zone where
  ID : String
  Name : List String
  deriving DecidableEq

/-- `Record` from the Go source: `{id, type, name, value}`.  The Go zero
value `Record{}` has all fields empty. -/
structure Record where
  ID : String
  Ty : String
  Name : String
  Value : String
  deriving DecidableEq

/-- The Go zero value `Record{}`. -/
def emptyRecord : Record := { ID := "", Ty := "", Name := "", Value := "" }

/-- The JSON payload map built by the Go write helpers:
`{"name", "type", "value", "ttl", "zone_id"}`. -/
structure Payload where
  name : String
  type : String
  value : String
  ttl : Int
  zone_id : String
  deriving DecidableEq

/-- One HTTP request issued by a provider-client helper. -/
structure HttpRequest where
  method : String
  url : String
  payload : Option Payload
  deriving DecidableEq

/-- The per-family reconciliation action (spec §4.4 decision table rows). -/
inductive Action
  | unchanged
  | update
  | create
  | delete
  deriving DecidableEq

/-- A provider write call as issued from the engine's main loop (arguments of
`createRecord` / `updateRecord` / `deleteRecord` at their call sites). -/
inductive WriteCall
  | create (zoneID recType name value : String)
  | update (zoneID recordID recType name value : String)
  | delete (recordID : String)
  deriving DecidableEq

/-- Per-domain errors, tagging the `fmt.Errorf` values of the Go source:
invalid domain name, `Zone nicht gefunden` / `can't find domain`, and the
record-lookup failure of `findRecords`. -/
inductive DomainError
  | invalidDomain
  | zoneNotFound
  | recordsNotFound
  deriving DecidableEq

/-- Provider write errors: a transport failure from `client.Do`, or a
non-200 status; `badStatus op rawStatus` tags the Go message
`op ++ ": " ++ resp.Status`, carrying the raw status for diagnostics. -/
inductive ProviderError
  | transport (err : String)
  | badStatus (op : String) (rawStatus : String)
  deriving DecidableEq

/-- The observable outcome of one HTTP call: transport failure from
`client.Do`, or a response with its `StatusCode` and `Status`. -/
inductive HResp
  | failure (err : String)
  | response (statusCode : Nat) (status : String)
  deriving DecidableEq

/-- Observable outcome of one plain-text body fetch (`http.Get` followed by
`io.ReadAll`): `.error e` is a failed `Get`, `.ok (.error e)` a failed body
read, `.ok (.ok s)` a body `s`. -/
abbrev Fetch := Except String (Except String String)

/-- `getPublicIPs` (identical in `src/main.go:145-167` and both dual-stack
variants of `part_000`): v4 `Get`/read failures abort; a v6 `Get` failure
returns `(ip4, "")`; a v6 body-read failure returns the error. -/
def getPublicIPs (resp4 resp6 : Fetch) : Except String (String × String) :=
  match resp4 with
  | .error e => .error e
  | .ok body4 =>
    match body4 with
    | .error e => .error e
    | .ok ip4 =>
      match resp6 with
      | .error _ => .ok (ip4, "")
      | .ok body6 =>
        match body6 with
        | .error e => .error e
        | .ok ip6 => .ok (ip4, ip6)

/-- The record-scanning loop of `findRecords` (`src/main.go:214-223`,
`part_000:530-539`): the Go `for` loop keeps reassigning `recordA` /
`recordAAAA` on every match, so a later match overwrites an earlier one.
The accumulator is the pair of those two local variables. -/
def findRecordsLoop (records : List Record) (fullDomain : String)
    (acc : Record × Record) : Record × Record :=
  match records with
  | [] => acc
  | rec :: rest =>
    if rec.Name == fullDomain && rec.Ty == "A" then
      findRecordsLoop rest fullDomain (rec, acc.2)
    else if rec.Name == fullDomain && rec.Ty == "AAAA" then
      findRecordsLoop rest fullDomain (acc.1, rec)
    else
      findRecordsLoop rest fullDomain acc

/-- `findRecords` (`src/main.go:197-229`, `part_000:513-545`): scans the
zone's records for the A and AAAA record of `fullDomain`; when neither was
found (both still have the zero value, detected via `Type == ""`) it fails. -/
def findRecords (records : List Record) (fullDomain : String) :
    Except DomainError (Record × Record) :=
  let res := findRecordsLoop records fullDomain (emptyRecord, emptyRecord)
  if res.1.Ty = "" ∧ res.2.Ty = "" then
    .error .recordsNotFound
  else
    .ok res

namespace MainGo

/-- `findZoneID` from `src/main.go:169-195`: requires at least two labels,
builds `baseDomain` from the **last two** labels only, and returns the first
zone whose name equals that suffix. -/
def findZoneID (zones : List Zone) (domain : List String) :
    Except DomainError String :=
  if domain.length < 2 then .error .invalidDomain
  else
    let baseDomain := domain.drop (domain.length - 2)
    match zones.find? (fun z => z.Name == baseDomain) with
    | some z => .ok z.ID
    | none => .error .zoneNotFound

/-- The JSON payload built by `updateRecord` in `src/main.go:231-239`: the
`"type"` field is the literal `"A"` whatever record is being updated. -/
def updateRecordPayload (ttl : Int) (zoneID name newIP : String) : Payload :=
  { name := name, type := "A", value := newIP, ttl := ttl, zone_id := zoneID }

/-- Response handling of `updateRecord` in `src/main.go:244-252`: transport
failure is returned; a non-200 status yields the error message
`Fehler beim Aktualisieren, Status: %s`; 200 succeeds. -/
def updateRecordResult (resp : HResp) : Except ProviderError Unit :=
  match resp with
  | .failure e => .error (.transport e)
  | .response code status =>
    if code ≠ 200 then .error (.badStatus "Fehler beim Aktualisieren, Status" status)
    else .ok ()

/-- The `(recordID, payload)` pairs of the `updateRecord` calls issued by the
loop body of `src/main.go:99-133` for one domain: the A write happens unless
`recordA.Value == ipv4`; the AAAA write happens unless
`ipv6 != "" && recordAAAA.Value == ipv6`; both only in update mode, and both
through the same `updateRecord` helper. -/
def processDomainWrites (updateMode : Bool) (ttl : Int)
    (zoneID ipv4 ipv6 : String) (recordA recordAAAA : Record) :
    List (String × Payload) :=
  (if recordA.Value = ipv4 then []
   else if updateMode then
     [(recordA.ID, updateRecordPayload ttl zoneID recordA.Name ipv4)]
   else []) ++
  (if ipv6 ≠ "" ∧ recordAAAA.Value = ipv6 then []
   else if updateMode then
     [(recordAAAA.ID, updateRecordPayload ttl zoneID recordAAAA.Name ipv6)]
   else [])

/-- One iteration of the domain loop of `src/main.go:82-134`: resolve the
zone, look up the records (`parts[0]` is the first label), then compute the
writes; a resolution or lookup error is recorded and skips the domain. -/
def processDomain (updateMode : Bool) (ttl : Int) (zones : List Zone)
    (recordsOf : String → List Record) (ipv4 ipv6 : String)
    (fullDomain : List String) :
    Except DomainError (List (String × Payload)) :=
  match findZoneID zones fullDomain with
  | .error e => .error e
  | .ok zoneID =>
    match findRecords (recordsOf zoneID) (fullDomain.headD "") with
    | .error e => .error e
    | .ok res =>
      .ok (processDomainWrites updateMode ttl zoneID ipv4 ipv6 res.1 res.2)

/-- The whole domain loop of `src/main.go:82-134`: every configured domain is
processed in order and yields its own outcome (`continue` on error). -/
def runAll (updateMode : Bool) (ttl : Int) (zones : List Zone)
    (recordsOf : String → List Record) (ipv4 ipv6 : String)
    (domains : List (List String)) :
    List (List String × Except DomainError (List (String × Payload))) :=
  domains.map fun d => (d, processDomain updateMode ttl zones recordsOf ipv4 ipv6 d)

/-- The run of `src/main.go:75-134` after configuration/log setup: a failed
`getPublicIPs` exits with code 1 before any reconciliation; otherwise the
domain loop runs and the process exits 0. -/
def run (updateMode : Bool) (ttl : Int) (resp4 resp6 : Fetch)
    (zones : List Zone) (recordsOf : String → List Record)
    (domains : List (List String)) :
    Nat × List (List String × Except DomainError (List (String × Payload))) :=
  match getPublicIPs resp4 resp6 with
  | .error _ => (1, [])
  | .ok ips => (0, runAll updateMode ttl zones recordsOf ips.1 ips.2 domains)

end MainGo

namespace V2

/-- The `strings.SplitN(fullDomain, ".", 2)` step of `part_000:310-316`:
first label and the remainder; anything but exactly two parts is an invalid
domain name. -/
def splitDomain (fullDomain : List String) :
    Except DomainError (String × List String) :=
  match fullDomain with
  | name :: z :: rest => .ok (name, z :: rest)
  | _ => .error .invalidDomain

/-- `findZoneID` from `part_000:491-511`: exact scan of the zone list for the
given (already split-off) zone name. -/
def findZoneID (zones : List Zone) (domain : List String) :
    Except DomainError String :=
  match zones.find? (fun z => z.Name == domain) with
  | some z => .ok z.ID
  | none => .error .zoneNotFound

/-- The IPv4 branch structure of `part_000:333-387`, read off as the chosen
action: current / needs update / needs create / needs delete / no need. -/
def decideA (ipv4 recValue : String) : Action :=
  if ipv4 ≠ "" then
    if recValue ≠ "" then
      if recValue = ipv4 then .unchanged else .update
    else .create
  else
    if recValue ≠ "" then .delete else .unchanged

/-- The IPv6 branch structure of `part_000:392-446`, read off as the chosen
action; textually the same branching as the IPv4 block. -/
def decideAAAA (ipv6 recValue : String) : Action :=
  if ipv6 ≠ "" then
    if recValue ≠ "" then
      if recValue = ipv6 then .unchanged else .update
    else .create
  else
    if recValue ≠ "" then .delete else .unchanged

/-- The provider write calls issued by the IPv4 block `part_000:333-387`
(`updateRecord(zoneID, recordA.ID, "A", namePart, ipv4)`,
`createRecord(zoneID, "A", namePart, ipv4)`, `deleteRecord(recordA.ID)`);
each write is attempted only in update mode. -/
def aBlockWrites (updateMode : Bool) (zoneID namePart ipv4 : String)
    (recordA : Record) : List WriteCall :=
  if ipv4 ≠ "" then
    if recordA.Value ≠ "" then
      if recordA.Value = ipv4 then []
      else if updateMode then
        [.update zoneID recordA.ID "A" namePart ipv4]
      else []
    else
      if updateMode then [.create zoneID "A" namePart ipv4] else []
  else
    if recordA.Value ≠ "" then
      if updateMode then [.delete recordA.ID] else []
    else []

/-- The provider write calls issued by the IPv6 block `part_000:392-446`;
same branching as the IPv4 block with `"AAAA"` and `recordAAAA`. -/
def aaaaBlockWrites (updateMode : Bool) (zoneID namePart ipv6 : String)
    (recordAAAA : Record) : List WriteCall :=
  if ipv6 ≠ "" then
    if recordAAAA.Value ≠ "" then
      if recordAAAA.Value = ipv6 then []
      else if updateMode then
        [.update zoneID recordAAAA.ID "AAAA" namePart ipv6]
      else []
    else
      if updateMode then [.create zoneID "AAAA" namePart ipv6] else []
  else
    if recordAAAA.Value ≠ "" then
      if updateMode then [.delete recordAAAA.ID] else []
    else []

/-- Modelled from the spec (§6, provider REST contract): the record value
one family stores after the family's write (if any) succeeds — `PUT` sets
the record to the sent value, `POST` creates it with the sent value,
`DELETE` removes it (zero `Record`, empty value), no write keeps it. -/
def postValue (cur recValue : String) : String :=
  match decideA cur recValue with
  | .update => cur
  | .create => cur
  | .delete => ""
  | .unchanged => recValue

/-- The two write blocks of one loop iteration (`part_000:330-446`) paired
with the provider's success verdict for each attempted call: the A block
runs first, the AAAA block runs afterwards unconditionally (its structure
never consults the A block's `err`). -/
def execDomainWrites (provider : WriteCall → Bool) (updateMode : Bool)
    (zoneID namePart ipv4 ipv6 : String) (recordA recordAAAA : Record) :
    List (WriteCall × Bool) :=
  (aBlockWrites updateMode zoneID namePart ipv4 recordA).map
    (fun w => (w, provider w)) ++
  (aaaaBlockWrites updateMode zoneID namePart ipv6 recordAAAA).map
    (fun w => (w, provider w))

/-- One iteration of the engine's domain loop (`part_000:306-447`): split the
domain at its first dot, resolve the zone part, fetch the zone's records,
then run both family blocks; each failure is recorded and skips the domain. -/
def processDomain (updateMode : Bool) (zones : List Zone)
    (recordsOf : String → List Record) (ipv4 ipv6 : String)
    (fullDomain : List String) : Except DomainError (List WriteCall) :=
  match splitDomain fullDomain with
  | .error e => .error e
  | .ok parts =>
    match findZoneID zones parts.2 with
    | .error e => .error e
    | .ok zoneID =>
      match findRecords (recordsOf zoneID) parts.1 with
      | .error e => .error e
      | .ok res =>
        .ok (aBlockWrites updateMode zoneID parts.1 ipv4 res.1 ++
             aaaaBlockWrites updateMode zoneID parts.1 ipv6 res.2)

/-- The engine's whole domain loop (`part_000:306-447`): every configured
domain is processed in order and yields its own outcome. -/
def runAll (updateMode : Bool) (zones : List Zone)
    (recordsOf : String → List Record) (ipv4 ipv6 : String)
    (domains : List (List String)) :
    List (List String × Except DomainError (List WriteCall)) :=
  domains.map fun d => (d, processDomain updateMode zones recordsOf ipv4 ipv6 d)

/-- The engine run after configuration/log setup (`part_000:299-447`): a
failed `getPublicIPs` exits with code 1 before any reconciliation; otherwise
the domain loop runs and the process exits 0. -/
def run (updateMode : Bool) (resp4 resp6 : Fetch) (zones : List Zone)
    (recordsOf : String → List Record) (domains : List (List String)) :
    Nat × List (List String × Except DomainError (List WriteCall)) :=
  match getPublicIPs resp4 resp6 with
  | .error _ => (1, [])
  | .ok ips => (0, runAll updateMode zones recordsOf ips.1 ips.2 domains)

/-- The single request issued by `createRecord` (`part_000:547-569`). -/
def createRecordRequests (ttl : Int) (zoneID recType name newIP : String) :
    List HttpRequest :=
  [{ method := "POST",
     url := "https://dns.hetzner.com/api/v1/records",
     payload := some { name := name, type := recType, value := newIP,
                       ttl := ttl, zone_id := zoneID } }]

/-- The single request issued by `updateRecord` (`part_000:571-593`). -/
def updateRecordRequests (ttl : Int) (zoneID recordID recType name newIP : String) :
    List HttpRequest :=
  [{ method := "PUT",
     url := "https://dns.hetzner.com/api/v1/records/" ++ recordID,
     payload := some { name := name, type := recType, value := newIP,
                       ttl := ttl, zone_id := zoneID } }]

/-- The single request issued by `deleteRecord` (`part_000:595-609`). -/
def deleteRecordRequests (recordID : String) : List HttpRequest :=
  [{ method := "DELETE",
     url := "https://dns.hetzner.com/api/v1/records/" ++ recordID,
     payload := none }]

/-- Response handling of `createRecord` (`part_000:560-568`): transport
failure is returned; a non-200 status yields `create status: %s`; 200
succeeds. -/
def createRecordResult (resp : HResp) : Except ProviderError Unit :=
  match resp with
  | .failure e => .error (.transport e)
  | .response code status =>
    if code ≠ 200 then .error (.badStatus "create status" status) else .ok ()

/-- Response handling of `updateRecord` (`part_000:584-592`). -/
def updateRecordResult (resp : HResp) : Except ProviderError Unit :=
  match resp with
  | .failure e => .error (.transport e)
  | .response code status =>
    if code ≠ 200 then .error (.badStatus "update status" status) else .ok ()

/-- Response handling of `deleteRecord` (`part_000:600-608`). -/
def deleteRecordResult (resp : HResp) : Except ProviderError Unit :=
  match resp with
  | .failure e => .error (.transport e)
  | .response code status =>
    if code ≠ 200 then .error (.badStatus "delete status" status) else .ok ()

end V2

/-- Decidable equality of call outcomes, so that the embedded functions can
be evaluated on concrete inputs. -/
instance {e a : Type} [DecidableEq e] [DecidableEq a] : DecidableEq (Except e a) := fun x y =>
  match x, y with
  | .error u, .error v =>
    if h : u = v then .isTrue (congrArg Except.error h)
    else .isFalse (fun hh => h (Except.error.inj hh))
  | .ok u, .ok v =>
    if h : u = v then .isTrue (congrArg Except.ok h)
    else .isFalse (fun hh => h (Except.ok.inj hh))
  | .error _, .ok _ => .isFalse (fun hh => Except.noConfusion hh)
  | .ok _, .error _ => .isFalse (fun hh => Except.noConfusion hh)

/-- Helper: tagging every element of a list with a verdict and projecting the
elements back is the identity. -/
theorem map_fst_tag {a : Type} (l : List a) (p : a → Bool) :
    (l.map (fun w => (w, p w))).map Prod.fst = l := by
  induction l with
  | nil => rfl
  | cons x t ih => simp [ih]

/-- Helper: a first-match search whose appended last element matches falls
back to that element as default. -/
theorem find?_append_getD_pos {a : Type} {p : a → Bool} {x : a} (hx : p x = true)
    (l : List a) (acc : a) :
    ((l ++ [x]).find? p).getD acc = (l.find? p).getD x := by
  rw [List.find?_append]
  cases h : l.find? p <;> simp [List.find?, hx, Option.or]

/-- Helper: a first-match search whose appended last element does not match
keeps its default. -/
theorem find?_append_getD_neg {a : Type} {p : a → Bool} {x : a} (hx : p x = false)
    (l : List a) (acc : a) :
    ((l ++ [x]).find? p).getD acc = (l.find? p).getD acc := by
  rw [List.find?_append]
  cases h : l.find? p <;> simp [List.find?, hx, Option.or]

/-- Helper: the record-scanning loop keeps, for each family, the last match
in response order (the first match of the reversed list), or the incoming
accumulator when there is none. -/
theorem findRecordsLoop_eq (records : List Record) (d : String) (accA accAAAA : Record) :
    findRecordsLoop records d (accA, accAAAA) =
      ((records.reverse.find? (fun r => r.Name == d && r.Ty == "A")).getD accA,
       (records.reverse.find? (fun r => r.Name == d && r.Ty == "AAAA")).getD accAAAA) := by
  induction records generalizing accA accAAAA with
  | nil => simp [findRecordsLoop]
  | cons rec rest ih =>
    simp only [findRecordsLoop]
    by_cases hA : (rec.Name == d && rec.Ty == "A") = true
    · have hty : rec.Ty = "A" := by
        have h2 := hA
        simp only [Bool.and_eq_true, beq_iff_eq] at h2
        exact h2.2
      have hAAAA : (rec.Name == d && rec.Ty == "AAAA") = false := by simp [hty]
      rw [if_pos hA, ih, List.reverse_cons,
        @find?_append_getD_pos Record (fun r => r.Name == d && r.Ty == "A") rec hA
          rest.reverse accA,
        @find?_append_getD_neg Record (fun r => r.Name == d && r.Ty == "AAAA") rec hAAAA
          rest.reverse accAAAA]
    · rw [if_neg hA]
      have hA0 : (rec.Name == d && rec.Ty == "A") = false := by
        simpa using hA
      by_cases hAAAA : (rec.Name == d && rec.Ty == "AAAA") = true
      · rw [if_pos hAAAA, ih, List.reverse_cons,
          @find?_append_getD_neg Record (fun r => r.Name == d && r.Ty == "A") rec hA0
            rest.reverse accA,
          @find?_append_getD_pos Record (fun r => r.Name == d && r.Ty == "AAAA") rec hAAAA
            rest.reverse accAAAA]
      · have hAAAA0 : (rec.Name == d && rec.Ty == "AAAA") = false := by
          simpa using hAAAA
        rw [if_neg hAAAA, ih, List.reverse_cons,
          @find?_append_getD_neg Record (fun r => r.Name == d && r.Ty == "A") rec hA0
            rest.reverse accA,
          @find?_append_getD_neg Record (fun r => r.Name == d && r.Ty == "AAAA") rec hAAAA0
            rest.reverse accAAAA]

/-- Helper: with the update flag unset, the IPv4 block issues no write. -/
theorem aBlockWrites_false (zoneID namePart cur : String) (r : Record) :
    V2.aBlockWrites false zoneID namePart cur r = [] := by
  unfold V2.aBlockWrites
  split_ifs <;> simp_all

/-- Helper: with the update flag unset, the IPv6 block issues no write. -/
theorem aaaaBlockWrites_false (zoneID namePart cur : String) (r : Record) :
    V2.aaaaBlockWrites false zoneID namePart cur r = [] := by
  unfold V2.aaaaBlockWrites
  split_ifs <;> simp_all

/-- C1: for every pair of discovered IP and existing record value, the
engine's per-family block chooses exactly the action of the spec's decision
table (unchanged / update / create / delete / unchanged), the IPv4 and IPv6
blocks choose identically, and after the chosen write succeeds a second
reconciliation chooses `unchanged` and performs no write. -/
theorem c1_decision_table (cur rec : String) :
    (V2.decideA cur rec = V2.decideAAAA cur rec) ∧
    (cur ≠ "" → rec = cur → V2.decideA cur rec = .unchanged) ∧
    (cur ≠ "" → rec ≠ "" → rec ≠ cur → V2.decideA cur rec = .update) ∧
    (cur ≠ "" → rec = "" → V2.decideA cur rec = .create) ∧
    (cur = "" → rec ≠ "" → V2.decideA cur rec = .delete) ∧
    (cur = "" → rec = "" → V2.decideA cur rec = .unchanged) ∧
    (V2.decideA cur (V2.postValue cur rec) = .unchanged) ∧
    (∀ (u : Bool) (zoneID namePart : String) (r0 : Record),
      V2.aBlockWrites u zoneID namePart cur { r0 with Value := V2.postValue cur rec } = []) ∧
    (∀ (u : Bool) (zoneID namePart : String) (r0 : Record),
      V2.aaaaBlockWrites u zoneID namePart cur { r0 with Value := V2.postValue cur rec } = []) := by
  by_cases hc : cur = "" <;> by_cases hr : rec = "" <;> by_cases hrc : rec = cur <;>
    simp_all [V2.decideA, V2.decideAAAA, V2.postValue, V2.aBlockWrites, V2.aaaaBlockWrites]

/-- Witness for C1: a present IP differing from the present record value
yields `update`, and re-deciding on the post-write value yields `unchanged`. -/
theorem c1_decision_table_witness :
    V2.decideA "1.2.3.4" "5.6.7.8" = .update ∧
    V2.decideA "1.2.3.4" (V2.postValue "1.2.3.4" "5.6.7.8") = .unchanged :=
  ⟨(c1_decision_table "1.2.3.4" "5.6.7.8").2.2.1 (by decide) (by decide) (by decide),
   (c1_decision_table "1.2.3.4" "5.6.7.8").2.2.2.2.2.2.1⟩

/-- C2 (code bug per spec §4.3): neither variant tries the FQDN suffixes
from most-specific to least-specific.  On zones `example.com → z1`,
`sub.example.com → z2`: `src/main.go` matches only the last two labels and
resolves `host.sub.example.com` to `z1` (`example.com`), not the required
`z2` (`sub.example.com`); the engine variant matches only the suffix after
the first label and fails to resolve `a.b.example.com` even though suffix
`example.com` is a zone, instead of falling back to shorter suffixes. -/
theorem c2_zone_resolution_eval :
    MainGo.findZoneID
        [⟨"z1", ["example", "com"]⟩, ⟨"z2", ["sub", "example", "com"]⟩]
        ["host", "sub", "example", "com"] = .ok "z1" ∧
    V2.findZoneID
        [⟨"z1", ["example", "com"]⟩, ⟨"z2", ["sub", "example", "com"]⟩]
        ["sub", "example", "com"] = .ok "z2" ∧
    V2.processDomain true [⟨"z1", ["example", "com"]⟩] (fun _ => []) "9.9.9.9" ""
        ["a", "b", "example", "com"] = .error DomainError.zoneNotFound := by
  refine ⟨by decide, by decide, by decide⟩

/-- C3 counterexample: with domain `a.example.com`, a matching zone, **no**
existing records and discovered `{v4: 9.9.9.9, v6: empty}`, the run does not
create an A record — `findRecords` fails (neither record found) and the
domain is skipped with no write attempted. -/
theorem c3_no_records_counterexample :
    V2.processDomain true [⟨"z1", ["example", "com"]⟩] (fun _ => []) "9.9.9.9" ""
        ["a", "example", "com"] = .error DomainError.recordsNotFound ∧
    findRecords [] "a" = .error DomainError.recordsNotFound := by
  refine ⟨by decide, by decide⟩

/-- C3 amended: in the scenario of the claim (domain `a.example.com`, no
existing A or AAAA record, discovered v4 `9.9.9.9` and empty v6), the record
lookup fails, the failure is the recorded outcome and the domain is skipped
with zero writes; no A record is created. -/
theorem c3_lookup_skip (recordsOf : String → List Record)
    (h : recordsOf "z1" = []) :
    V2.processDomain true [⟨"z1", ["example", "com"]⟩] recordsOf "9.9.9.9" ""
        ["a", "example", "com"] = .error DomainError.recordsNotFound := by
  have hz : V2.findZoneID [⟨"z1", ["example", "com"]⟩] ["example", "com"] = .ok "z1" := by
    decide
  have hr : findRecords (recordsOf "z1") "a" = .error DomainError.recordsNotFound := by
    rw [h]
    decide
  simp [V2.processDomain, V2.splitDomain, hz, hr]

/-- Witness for C3 as amended, at the empty record table. -/
theorem c3_lookup_skip_witness :
    V2.processDomain true [⟨"z1", ["example", "com"]⟩] (fun _ => []) "9.9.9.9" ""
        ["a", "example", "com"] = .error DomainError.recordsNotFound :=
  c3_lookup_skip (fun _ => []) rfl

/-- C4: every payload built by the `updateRecord` helper of `src/main.go`
has its `type` field equal to the literal `"A"`, so every write issued by
the loop body — the AAAA-path call included — sends type `"A"`. -/
theorem c4_payload_type_always_A (ttl : Int) (zoneID name newIP v4 v6 : String)
    (u : Bool) (ra raaaa : Record) :
    (MainGo.updateRecordPayload ttl zoneID name newIP).type = "A" ∧
    ((MainGo.processDomainWrites u ttl zoneID v4 v6 ra raaaa).all
      (fun w => w.2.type == "A")) = true ∧
    (¬(v6 ≠ "" ∧ raaaa.Value = v6) →
      MainGo.processDomainWrites true ttl zoneID v4 v6 ra raaaa =
        (if ra.Value = v4 then []
         else [(ra.ID, MainGo.updateRecordPayload ttl zoneID ra.Name v4)]) ++
        [(raaaa.ID, MainGo.updateRecordPayload ttl zoneID raaaa.Name v6)]) := by
  refine ⟨rfl, ?_, ?_⟩
  · unfold MainGo.processDomainWrites
    split_ifs <;> simp [MainGo.updateRecordPayload]
  · intro h
    by_cases hA : ra.Value = v4 <;>
      simp [MainGo.processDomainWrites, h, hA]

/-- Witness for C4: the AAAA-path write of `src/main.go` carries
`type = "A"`. -/
theorem c4_payload_type_always_A_witness :
    MainGo.processDomainWrites true 300 "z1" "1.2.3.4" "::1"
        ⟨"ra", "A", "host", "1.2.3.4"⟩ ⟨"rb", "AAAA", "host", "::2"⟩ =
      [("rb", MainGo.updateRecordPayload 300 "z1" "host" "::1")] :=
  (c4_payload_type_always_A 300 "z1" "host" "::1" "1.2.3.4" "::1" true
    ⟨"ra", "A", "host", "1.2.3.4"⟩ ⟨"rb", "AAAA", "host", "::2"⟩).2.2 (by decide)

/-- C5 counterexample: an IPv6-side discovery failure that **is** fatal —
when the IPv6 request succeeds but reading its body fails, `getPublicIPs`
returns the error (discarding the already-discovered IPv4) and the run
aborts with exit code 1 before any reconciliation. -/
theorem c5_ipv6_read_failure_counterexample :
    getPublicIPs (.ok (.ok "1.2.3.4")) (.ok (.error "read failed"))
      = .error "read failed" ∧
    MainGo.run true 300 (.ok (.ok "1.2.3.4")) (.ok (.error "read failed"))
        [] (fun _ => []) [] = (1, []) :=
  ⟨rfl, rfl⟩

/-- C5 amended: an IPv4 discovery failure (request or body read) aborts the
run with exit code 1 and no reconciliation; an IPv6 **request** failure is
non-fatal — discovery returns the IPv4 with an empty v6 and the domain loop
proceeds; but an IPv6 **body-read** failure after a successful request is
fatal like the IPv4 failures. -/
theorem c5_discovery_policy (u : Bool) (ttl : Int) (e ip4 ip6 : String)
    (f6 : Fetch) (zones : List Zone) (recordsOf : String → List Record)
    (ds : List (List String)) :
    MainGo.run u ttl (.error e) f6 zones recordsOf ds = (1, []) ∧
    MainGo.run u ttl (.ok (.error e)) f6 zones recordsOf ds = (1, []) ∧
    MainGo.run u ttl (.ok (.ok ip4)) (.error e) zones recordsOf ds =
      (0, MainGo.runAll u ttl zones recordsOf ip4 "" ds) ∧
    MainGo.run u ttl (.ok (.ok ip4)) (.ok (.error e)) zones recordsOf ds = (1, []) ∧
    getPublicIPs (.ok (.ok ip4)) (.ok (.ok ip6)) = .ok (ip4, ip6) :=
  ⟨rfl, rfl, rfl, rfl, rfl⟩

/-- C6: the writes a loop iteration attempts do not depend on the provider's
verdicts — in particular an A-side write failure (any provider behaviour
`p`) leaves the attempted AAAA writes exactly those computed by the AAAA
block's own decision, which is empty precisely when the flag is unset or the
AAAA decision is `unchanged`; the A result is recorded alongside and the
AAAA block still runs after it. -/
theorem c6_family_isolation (p q : WriteCall → Bool) (u : Bool)
    (zoneID namePart ipv4 ipv6 : String) (recordA recordAAAA : Record) :
    V2.execDomainWrites p u zoneID namePart ipv4 ipv6 recordA recordAAAA =
      (V2.aBlockWrites u zoneID namePart ipv4 recordA).map (fun w => (w, p w)) ++
      (V2.aaaaBlockWrites u zoneID namePart ipv6 recordAAAA).map (fun w => (w, p w)) ∧
    (V2.execDomainWrites p u zoneID namePart ipv4 ipv6 recordA recordAAAA).map Prod.fst =
      (V2.execDomainWrites q u zoneID namePart ipv4 ipv6 recordA recordAAAA).map Prod.fst ∧
    (V2.execDomainWrites p u zoneID namePart ipv4 ipv6 recordA recordAAAA).map Prod.fst =
      V2.aBlockWrites u zoneID namePart ipv4 recordA ++
      V2.aaaaBlockWrites u zoneID namePart ipv6 recordAAAA ∧
    (V2.aaaaBlockWrites u zoneID namePart ipv6 recordAAAA = [] ↔
      (u = false ∨ V2.decideAAAA ipv6 recordAAAA.Value = .unchanged)) := by
  refine ⟨rfl, ?_, ?_, ?_⟩
  · simp only [V2.execDomainWrites, List.map_append, map_fst_tag]
  · simp only [V2.execDomainWrites, List.map_append, map_fst_tag]
  · cases u with
    | false => simp [aaaaBlockWrites_false]
    | true =>
      by_cases h6 : ipv6 = "" <;> by_cases hv : recordAAAA.Value = "" <;>
        by_cases he : recordAAAA.Value = ipv6 <;>
          simp_all [V2.aaaaBlockWrites, V2.decideAAAA]

/-- C7: the engine's domain loop processes every configured domain in order
and independently: the outcome list splits over the configured list, one
entry per domain whatever earlier outcomes were; a zone-resolution or
record-lookup failure makes that domain's outcome the recorded error (no
writes); and with discovery successful the process exit code is 0 whatever
the per-domain outcomes. -/
theorem c7_per_domain_isolation (u : Bool) (zones : List Zone)
    (recordsOf : String → List Record) (v4 v6 : String)
    (ds1 ds2 : List (List String)) (d : List String) :
    V2.runAll u zones recordsOf v4 v6 (ds1 ++ ds2) =
      V2.runAll u zones recordsOf v4 v6 ds1 ++ V2.runAll u zones recordsOf v4 v6 ds2 ∧
    V2.runAll u zones recordsOf v4 v6 (d :: ds2) =
      (d, V2.processDomain u zones recordsOf v4 v6 d) ::
        V2.runAll u zones recordsOf v4 v6 ds2 ∧
    (V2.runAll u zones recordsOf v4 v6 ds1).length = ds1.length ∧
    (∀ name zp, V2.splitDomain d = .ok (name, zp) →
      V2.findZoneID zones zp = .error .zoneNotFound →
      V2.processDomain u zones recordsOf v4 v6 d = .error .zoneNotFound) ∧
    (∀ name zp zid, V2.splitDomain d = .ok (name, zp) →
      V2.findZoneID zones zp = .ok zid →
      findRecords (recordsOf zid) name = .error .recordsNotFound →
      V2.processDomain u zones recordsOf v4 v6 d = .error .recordsNotFound) ∧
    (∀ s4 s6, V2.run u (.ok (.ok s4)) (.ok (.ok s6)) zones recordsOf ds1 =
      (0, V2.runAll u zones recordsOf s4 s6 ds1)) := by
  refine ⟨by simp [V2.runAll], rfl, by simp [V2.runAll], ?_, ?_, fun s4 s6 => rfl⟩
  · intro name zp h1 h2
    simp [V2.processDomain, h1, h2]
  · intro name zp zid h1 h2 h3
    simp [V2.processDomain, h1, h2, h3]

/-- Witness for C7: a domain whose zone suffix matches no zone yields the
recorded resolution error. -/
theorem c7_per_domain_isolation_witness :
    V2.processDomain true [⟨"z1", ["example", "com"]⟩] (fun _ => []) "9.9.9.9" ""
        ["host", "nomatch", "net"] = .error DomainError.zoneNotFound :=
  (c7_per_domain_isolation true [⟨"z1", ["example", "com"]⟩] (fun _ => [])
      "9.9.9.9" "" [] [] ["host", "nomatch", "net"]).2.2.2.1
    "host" ["nomatch", "net"] rfl (by decide)

/-- C8: with the update flag unset (dry run), neither family block issues a
write and a successfully processed domain records an empty write list, while
the intended action (the reported decision) is still computed — e.g. a
differing present value still decides `update`. -/
theorem c8_dry_run (zoneID namePart cur v4 v6 : String) (r : Record)
    (zones : List Zone) (recordsOf : String → List Record) (d : List String) :
    V2.aBlockWrites false zoneID namePart cur r = [] ∧
    V2.aaaaBlockWrites false zoneID namePart cur r = [] ∧
    (∀ ws, V2.processDomain false zones recordsOf v4 v6 d = .ok ws → ws = []) ∧
    (cur ≠ "" → r.Value ≠ "" → r.Value ≠ cur →
      V2.decideA cur r.Value = .update ∧
      V2.aBlockWrites false zoneID namePart cur r = []) := by
  refine ⟨aBlockWrites_false _ _ _ _, aaaaBlockWrites_false _ _ _ _, ?_, ?_⟩
  · intro ws h
    unfold V2.processDomain at h
    split at h
    · exact Except.noConfusion h
    · split at h
      · exact Except.noConfusion h
      · split at h
        · exact Except.noConfusion h
        · simp only [aBlockWrites_false, aaaaBlockWrites_false,
            List.nil_append, Except.ok.injEq] at h
          exact h.symm
  · intro h1 h2 h3
    exact ⟨by simp [V2.decideA, h1, h2, h3], aBlockWrites_false _ _ _ _⟩

/-- Witness for C8: an A record whose value differs from the discovered IP
still decides `update` in dry-run mode, with no write issued. -/
theorem c8_dry_run_witness :
    V2.decideA "9.9.9.9" "1.1.1.1" = .update ∧
    V2.aBlockWrites false "z1" "host" "9.9.9.9" ⟨"rid", "A", "host", "1.1.1.1"⟩ = [] :=
  (c8_dry_run "z1" "host" "9.9.9.9" "" "" ⟨"rid", "A", "host", "1.1.1.1"⟩ []
      (fun _ => []) []).2.2.2 (by decide) (by decide) (by decide)

/-- C9 counterexample: with two A records matching the looked-up name, the
lookup returns the **second** (last) one, not the first in response order. -/
theorem c9_last_match_counterexample :
    findRecords
        [{ ID := "r1", Ty := "A", Name := "host", Value := "1.1.1.1" },
         { ID := "r2", Ty := "A", Name := "host", Value := "2.2.2.2" }] "host" =
      .ok ({ ID := "r2", Ty := "A", Name := "host", Value := "2.2.2.2" }, emptyRecord) ∧
    ({ ID := "r1", Ty := "A", Name := "host", Value := "1.1.1.1" } : Record) ≠
      { ID := "r2", Ty := "A", Name := "host", Value := "2.2.2.2" } := by
  refine ⟨by decide, by decide⟩

/-- C9 amended: the lookup is deterministic but keeps, for each family, the
**last** matching record in response order (the first match of the reversed
response), falling back to the zero record when there is none. -/
theorem c9_picks_last_match (records : List Record) (d : String) :
    findRecordsLoop records d (emptyRecord, emptyRecord) =
      ((records.reverse.find? (fun r => r.Name == d && r.Ty == "A")).getD emptyRecord,
       (records.reverse.find? (fun r => r.Name == d && r.Ty == "AAAA")).getD emptyRecord) :=
  findRecordsLoop_eq records d emptyRecord emptyRecord

/-- C10: every provider write helper succeeds exactly on an HTTP 200
response; a non-200 status yields an error carrying the raw status text, a
transport failure yields an error carrying its message, and each helper
issues exactly one request (no retry). -/
theorem c10_write_contract (resp : HResp) (code : Nat) (status e : String)
    (ttl : Int) (zoneID recordID recType name newIP : String) :
    (V2.createRecordResult resp = .ok () ↔ ∃ st, resp = .response 200 st) ∧
    (V2.updateRecordResult resp = .ok () ↔ ∃ st, resp = .response 200 st) ∧
    (V2.deleteRecordResult resp = .ok () ↔ ∃ st, resp = .response 200 st) ∧
    (MainGo.updateRecordResult resp = .ok () ↔ ∃ st, resp = .response 200 st) ∧
    (code ≠ 200 → V2.createRecordResult (.response code status) =
      .error (.badStatus "create status" status)) ∧
    (code ≠ 200 → V2.updateRecordResult (.response code status) =
      .error (.badStatus "update status" status)) ∧
    (code ≠ 200 → V2.deleteRecordResult (.response code status) =
      .error (.badStatus "delete status" status)) ∧
    (V2.createRecordResult (.failure e) = .error (.transport e)) ∧
    (V2.createRecordRequests ttl zoneID recType name newIP).length = 1 ∧
    (V2.updateRecordRequests ttl zoneID recordID recType name newIP).length = 1 ∧
    (V2.deleteRecordRequests recordID).length = 1 := by
  refine ⟨?_, ?_, ?_, ?_, ?_, ?_, ?_, rfl, rfl, rfl, rfl⟩
  · cases resp with
    | failure e2 => simp [V2.createRecordResult]
    | response c s => by_cases h : c = 200 <;> simp [V2.createRecordResult, h]
  · cases resp with
    | failure e2 => simp [V2.updateRecordResult]
    | response c s => by_cases h : c = 200 <;> simp [V2.updateRecordResult, h]
  · cases resp with
    | failure e2 => simp [V2.deleteRecordResult]
    | response c s => by_cases h : c = 200 <;> simp [V2.deleteRecordResult, h]
  · cases resp with
    | failure e2 => simp [MainGo.updateRecordResult]
    | response c s => by_cases h : c = 200 <;> simp [MainGo.updateRecordResult, h]
  · intro h; simp [V2.createRecordResult, h]
  · intro h; simp [V2.updateRecordResult, h]
  · intro h; simp [V2.deleteRecordResult, h]

/-- Witness for C10: a 500 response on an update surfaces as an error
carrying the raw status. -/
theorem c10_write_contract_witness :
    V2.updateRecordResult (.response 500 "500 Internal Server Error") =
      .error (.badStatus "update status" "500 Internal Server Error") :=
  (c10_write_contract (.failure "") 500 "500 Internal Server Error" "" 300
      "z" "r" "A" "h" "ip").2.2.2.2.2.1 (by decide)

end Dns
